import Mathlib

/-!
Verification of the Smart Warp mesh-animation tool (GridMesh physics engine,
brush/weight painting, affine triangle renderer, layer management and GIF
export loop), shallowly embedded over the rationals.

JS `Math` transcendental functions (`sin`, `cos`, `sqrt`, `atan2`) are kept
abstract in a `MathOps` record; all theorems are stated for every such record,
with the properties of the genuine functions assumed pointwise where needed.
Rational division by zero is `0` in Lean; where the JS source writes
`expr || 0` to coerce a `NaN` (from `0/0`) to `0`, the `ℚ` convention realizes
exactly that coercion.
-/

set_option linter.unusedVariables false

/-- Abstract record of the JS `Math` functions used by the physics engine. -/
structure MathOps where
  sin : ℚ → ℚ
  cos : ℚ → ℚ
  sqrt : ℚ → ℚ
  atan2 : ℚ → ℚ → ℚ

/-- `type AnimationType = 'idle' | 'wind' | 'water' | 'fire' | 'pulse' | 'wobble' | 'spiral'`. -/
inductive AnimationType where
  | idle | wind | water | fire | pulse | wobble | spiral
  deriving DecidableEq, Repr

/-- `interface PhysicsConfig`. -/
structure PhysicsConfig where
  type : AnimationType
  amplitude : ℚ
  frequency : ℚ
  speed : ℚ
  directionX : ℚ
  directionY : ℚ
  turbulence : ℚ
  deriving DecidableEq, Repr

/-- `interface AnimationLayer`.  Per-layer weights are looked up by `id`. -/
structure AnimationLayer where
  id : String
  name : String
  isVisible : Bool
  color : String
  config : PhysicsConfig
  deriving DecidableEq, Repr

/-- `interface Point`: current position `(x, y)`, rest position `(ox, oy)` and
the per-layer weight map.  The JS `weights` record is sparse with absent keys
read as `0` (`p.weights[layerId] || 0`, and `weight && weight > 0.01` is false
on `undefined`); we embed it as a total function defaulting to `0`. -/
structure Point where
  x : ℚ
  y : ℚ
  ox : ℚ
  oy : ℚ
  weights : String → ℚ

/-- `class GridMesh` state. -/
structure GridMesh where
  cols : ℕ
  rows : ℕ
  width : ℚ
  height : ℚ
  points : List Point

/-- Body of the loop in `GridMesh.brush` for one point. -/
def brushPoint (O : MathOps) (cx cy radius strength : ℚ) (isEraser : Bool)
    (layerId : String) (p : Point) : Point :=
  let dx := p.ox - cx
  let dy := p.oy - cy
  let dist := O.sqrt (dx * dx + dy * dy)
  if dist < radius then
    let falloff := 1 - dist / radius
    let change := falloff * strength
    let currentWeight := p.weights layerId
    let newWeight := if isEraser then max 0 (currentWeight - change)
                     else min 1 (currentWeight + change)
    { p with weights := fun id => if id = layerId then newWeight else p.weights id }
  else p

/-- `GridMesh.brush(cx, cy, radius, strength, isEraser, layerId)`. -/
def GridMesh.brush (O : MathOps) (m : GridMesh) (cx cy radius strength : ℚ)
    (isEraser : Bool) (layerId : String) : GridMesh :=
  { m with points := m.points.map (brushPoint O cx cy radius strength isEraser layerId) }

/-- `GridMesh.fillWeights(layerId)`: sets every point's weight for `layerId` to 1. -/
def GridMesh.fillWeights (m : GridMesh) (layerId : String) : GridMesh :=
  { m with points := m.points.map (fun p =>
      { p with weights := fun id => if id = layerId then 1 else p.weights id }) }

/-- `GridMesh.clearWeights(layerId)`: sets every point's weight for `layerId` to 0. -/
def GridMesh.clearWeights (m : GridMesh) (layerId : String) : GridMesh :=
  { m with points := m.points.map (fun p =>
      { p with weights := fun id => if id = layerId then 0 else p.weights id }) }

/-- `GridMesh.calculateDisplacement(p, t, config)`: pure displacement of one
point as a function of its rest position, the layer-local time and the layer
config.  In the `idle` branch the JS source divides by `dist` and coerces the
`NaN` arising at the mesh center with `|| 0`; rational division by zero being
`0` realizes that coercion (a genuine `sqrt` returns `0` only when both
numerators are `0`).  The `pulse` branch guards its division with
`(dist || 1)`, embedded as an explicit zero test. -/
def GridMesh.calculateDisplacement (O : MathOps) (m : GridMesh) (p : Point)
    (t : ℚ) (config : PhysicsConfig) : ℚ × ℚ :=
  match config.type with
  | AnimationType.idle =>
      let cx := m.width / 2
      let cy := m.height / 2
      let dist := O.sqrt ((p.ox - cx) ^ 2 + (p.oy - cy) ^ 2)
      let normDist := dist / (m.width * 0.5)
      let breath := O.sin (t * config.frequency) * config.amplitude * max 0 (1 - normDist)
      let dx := ((p.ox - cx) / dist) * breath * 0.5
      let dy := (((p.oy - cy) / dist) * breath) - breath * 0.5
      (dx, dy)
  | AnimationType.wind =>
      let noise := O.sin (p.ox * 0.02 + p.oy * 0.02 + t) +
                   O.cos (p.oy * 0.05 + t * 1.5) * config.turbulence
      let dx := (O.cos t + noise) * config.amplitude * config.directionX
      let dy := (O.sin (t * 0.7) + noise) * config.amplitude * config.directionY
      (dx, dy)
  | AnimationType.water =>
      let wave1 := O.sin (p.ox * 0.05 + t * 2)
      let wave2 := O.cos (p.oy * 0.05 + t * 1.5)
      let dx := wave2 * config.amplitude * 0.3
      let dy := wave1 * config.amplitude
      (dx, dy)
  | AnimationType.fire =>
      let noiseX := O.sin (p.ox * 0.1 + t * 5) * O.cos (p.oy * 0.05 + t * 2)
      let noiseY := O.sin (p.oy * 0.1 + t * 3)
      let dx := noiseX * (config.amplitude * 0.5)
      let dy := noiseY * config.amplitude - |O.sin t| * 2
      (dx, dy)
  | AnimationType.pulse =>
      let beat := (O.sin (t * config.frequency)) ^ 6
      let cx := m.width / 2
      let cy := m.height / 2
      let dist := O.sqrt ((p.ox - cx) ^ 2 + (p.oy - cy) ^ 2)
      let dirX := (p.ox - cx) / (if dist = 0 then 1 else dist)
      let dirY := (p.oy - cy) / (if dist = 0 then 1 else dist)
      (dirX * beat * config.amplitude, dirY * beat * config.amplitude)
  | AnimationType.wobble =>
      let dx := O.sin (t * config.frequency + p.oy * 0.05) * config.amplitude
      let dy := O.cos (t * config.frequency + p.ox * 0.05) * config.amplitude
      (dx, dy)
  | AnimationType.spiral =>
      let cx := m.width / 2
      let cy := m.height / 2
      let dxRaw := p.ox - cx
      let dyRaw := p.oy - cy
      let angle := O.atan2 dyRaw dxRaw
      let dist := O.sqrt (dxRaw * dxRaw + dyRaw * dyRaw)
      let twist := O.sin (t * config.frequency) * (config.amplitude * 0.01) * (dist / 100)
      let newAngle := angle + twist
      let newX := cx + O.cos newAngle * dist
      let newY := cy + O.sin newAngle * dist
      (newX - p.ox, newY - p.oy)

/-- Inner accumulation over layers in `GridMesh.update`: accumulates
`(totalDx, totalDy, activeInfluence)`.  The JS guard is
`weight && weight > 0.01`: a falsy (zero / absent) weight short-circuits. -/
def updateAccum (O : MathOps) (m : GridMesh) (time : ℚ) (p : Point)
    (layers : List AnimationLayer) (acc : ℚ × ℚ × Bool) : ℚ × ℚ × Bool :=
  match layers with
  | [] => acc
  | layer :: rest =>
      if layer.isVisible then
        let weight := p.weights layer.id
        if weight ≠ 0 ∧ (0.01 : ℚ) < weight then
          let t := time * layer.config.speed
          let d := m.calculateDisplacement O p t layer.config
          updateAccum O m time p rest
            (acc.1 + d.1 * weight, acc.2.1 + d.2 * weight, true)
        else updateAccum O m time p rest acc
      else updateAccum O m time p rest acc

/-- Body of the point loop in `GridMesh.update`. -/
def updatePoint (O : MathOps) (m : GridMesh) (time : ℚ)
    (layers : List AnimationLayer) (p : Point) : Point :=
  let acc := updateAccum O m time p layers (0, 0, false)
  if acc.2.2 = false then { p with x := p.ox, y := p.oy }
  else { p with x := p.ox + acc.1, y := p.oy + acc.2.1 }

/-- `GridMesh.update(time, layers)`. -/
def GridMesh.update (O : MathOps) (m : GridMesh) (time : ℚ)
    (layers : List AnimationLayer) : GridMesh :=
  { m with points := m.points.map (updatePoint O m time layers) }

/-! ## Triangle renderer (`textureMap`) -/

/-- One 2D-canvas command issued by `textureMap`. -/
inductive CanvasOp where
  | save
  | beginPath
  | moveTo (x y : ℚ)
  | lineTo (x y : ℚ)
  | closePath
  | clip
  | transform (a b c d e f : ℚ)
  | drawImage (w h : ℚ)
  | restore
  deriving DecidableEq, Repr

/-- The affine solve of `textureMap` (source lines computing `a..f` from the
rest pose `(x0..y2)` and the current pose `(u0..v2)`).  `r = 1 / det` is
rational division: at `det = 0` the JS value is `Infinity` while here it is
`0`; no theorem below relies on the value of the coefficients at `det = 0`. -/
def affineCoeffs (p0 p1 p2 : Point) : ℚ × ℚ × ℚ × ℚ × ℚ × ℚ :=
  let x0 := p0.ox; let y0 := p0.oy
  let x1 := p1.ox; let y1 := p1.oy
  let x2 := p2.ox; let y2 := p2.oy
  let u0 := p0.x; let v0 := p0.y
  let u1 := p1.x; let v1 := p1.y
  let u2 := p2.x; let v2 := p2.y
  let t_a := x1 - x0; let t_b := y1 - y0; let t_c := x2 - x0; let t_d := y2 - y0
  let det := t_a * t_d - t_b * t_c
  let r := 1 / det
  let da := u1 - u0; let db := v1 - v0; let dc := u2 - u0; let dd := v2 - v0
  let a := (da * t_d - dc * t_b) * r
  let b := (db * t_d - dd * t_b) * r
  let c := (dc * t_a - da * t_c) * r
  let d := (dd * t_a - db * t_c) * r
  let e := u0 - a * x0 - c * y0
  let f := v0 - b * x0 - d * y0
  (a, b, c, d, e, f)

/-- `textureMap(ctx, texture, pts, indices)` as the sequence of canvas commands
it issues for the triangle `p0 p1 p2` (the three points the call sites select
by index).  `w, h` are the mesh width and height passed to `drawImage`.
The source contains no determinant test: it clips to the current-pose
triangle, solves the affine map and draws, unconditionally. -/
def textureMap (p0 p1 p2 : Point) (w h : ℚ) : List CanvasOp :=
  let co := affineCoeffs p0 p1 p2
  [CanvasOp.save,
   CanvasOp.beginPath,
   CanvasOp.moveTo p0.x p0.y,
   CanvasOp.lineTo p1.x p1.y,
   CanvasOp.lineTo p2.x p2.y,
   CanvasOp.closePath,
   CanvasOp.clip,
   CanvasOp.transform co.1 co.2.1 co.2.2.1 co.2.2.2.1 co.2.2.2.2.1 co.2.2.2.2.2,
   CanvasOp.drawImage w h,
   CanvasOp.restore]

/-! ## Layer management -/

/-- Component state touched by `removeLayer`. -/
structure WarpState where
  layers : List AnimationLayer
  activeLayerId : String
  mesh : GridMesh

/-- Placeholder for the JS crash that `newLayers[0].id` would be on an empty
list; unreachable whenever layer ids are distinct and `layers.length > 1`. -/
def defaultAnimationLayer : AnimationLayer :=
  { id := "", name := "", isVisible := true, color := "",
    config := { type := AnimationType.wind, amplitude := 0, frequency := 0,
                speed := 0, directionX := 0, directionY := 0, turbulence := 0 } }

/-- `removeLayer(id)`: rejected (no mutation at all) when at most one layer
exists; otherwise filters out the layer, repairs the active selection and
clears that layer's weights on the mesh. -/
def removeLayer (id : String) (st : WarpState) : WarpState :=
  if st.layers.length ≤ 1 then st
  else
    let newLayers := st.layers.filter (fun l => l.id ≠ id)
    { layers := newLayers,
      activeLayerId := if st.activeLayerId = id
                       then (newLayers.headD defaultAnimationLayer).id
                       else st.activeLayerId,
      mesh := st.mesh.clearWeights id }

/-! ## GIF export loop (`handleExportGIF`) -/

/-- One `gif.addFrame(canvas, {copy: true, delay})` call: the per-frame delay
and the mesh state whose render the canvas holds at that moment. -/
structure ExportFrame where
  delay : ℚ
  content : GridMesh

/-- JS `Math.round`: half-integers round toward positive infinity. -/
def jsRound (q : ℚ) : ℤ := ⌊q + 1 / 2⌋

/-- `timeRef.current = 0; points.forEach(p => { p.x = p.ox; p.y = p.oy; })`
run in the `finished` callback. -/
def resetMeshPositions (m : GridMesh) : GridMesh :=
  { m with points := m.points.map (fun p => { p with x := p.ox, y := p.oy }) }

/-- `captureLoop` of `handleExportGIF`, driven by the countdown
`totalFrames - currentFrame`.  Each iteration increments the global time,
updates the mesh, renders, hands one frame to the encoder and reports
`round((currentFrame / totalFrames) * 100)`.  Returns the frames handed to
the encoder, the reported progress values, and the final time counter and
mesh after the `finished` callback. -/
def captureLoopAux (O : MathOps) (layers : List AnimationLayer) (delay : ℚ)
    (total : ℕ) : ℕ → ℚ → GridMesh → ℕ →
    List ExportFrame × List ℤ × ℚ × GridMesh
  | 0, _, mesh, _ => ([], [], 0, resetMeshPositions mesh)
  | fuel + 1, time, mesh, currentFrame =>
      let time' := time + 1
      let mesh' := mesh.update O time' layers
      let frame : ExportFrame := { delay := delay, content := mesh' }
      let prog := jsRound ((((currentFrame : ℚ) + 1) / (total : ℚ)) * 100)
      let rest := captureLoopAux O layers delay total fuel time' mesh' (currentFrame + 1)
      (frame :: rest.1, prog :: rest.2.1, rest.2.2)

/-- `handleExportGIF` happy path (encoder loaded, mesh present): runs
`captureLoop` for `totalFrames = gifDuration * gifFps` ticks with per-frame
delay `1000 / gifFps`, starting from global time `time0`. -/
def handleExportGIF (O : MathOps) (layers : List AnimationLayer)
    (gifDuration gifFps : ℕ) (time0 : ℚ) (mesh : GridMesh) :
    List ExportFrame × List ℤ × ℚ × GridMesh :=
  let totalFrames := gifDuration * gifFps
  let delay := (1000 : ℚ) / (gifFps : ℚ)
  captureLoopAux O layers delay totalFrames totalFrames time0 mesh 0

/-! ## Spec-side helpers -/

/-- The clamp to `[0, 1]` the spec describes for brush weights. -/
def clamp01 (q : ℚ) : ℚ := max 0 (min 1 q)

/-! ## Claims -/

/-- **C1** (counterexample).  The claim states that the renderer detects a
near-zero determinant before computing `r = 1/det` and skips the degenerate
triangle's draw.  At the spec's own collinear example `(0,0),(5,5),(10,10)`
(current pose equal to rest pose) the command sequence issued by `textureMap`
still contains the `drawImage` call: no skip happens, refuting the claimed
detection. -/
theorem C1_skip_counterexample :
    CanvasOp.drawImage 10 10 ∈
      textureMap ⟨0, 0, 0, 0, fun _ => 0⟩ ⟨5, 5, 5, 5, fun _ => 0⟩
        ⟨10, 10, 10, 10, fun _ => 0⟩ 10 10 := by
  decide

/-- **C1** (amended).  `textureMap` contains no determinant test at all: for
every triangle — collinear rest pose included — it issues the same full
command sequence, clipping to the current-pose triangle, computing the affine
coefficients (with `r = 1/det` taken unconditionally) and drawing.  No error
is raised (the embedding is a total function); a degenerate triangle is never
specially skipped. -/
theorem C1_textureMap_unconditional_draw (p0 p1 p2 : Point) (w h : ℚ) :
    ∃ a b c d e f : ℚ,
      textureMap p0 p1 p2 w h =
        [CanvasOp.save, CanvasOp.beginPath, CanvasOp.moveTo p0.x p0.y,
         CanvasOp.lineTo p1.x p1.y, CanvasOp.lineTo p2.x p2.y,
         CanvasOp.closePath, CanvasOp.clip,
         CanvasOp.transform a b c d e f, CanvasOp.drawImage w h,
         CanvasOp.restore] :=
  ⟨_, _, _, _, _, _, rfl⟩

/-- **C4**.  For a non-degenerate triangle whose current pose equals its rest
pose, the affine solve of `textureMap` yields exactly the identity transform
`(a, b, c, d, e, f) = (1, 0, 0, 1, 0, 0)` (exact over `ℚ`, hence within any
floating-point tolerance). -/
theorem C4_affine_identity (p0 p1 p2 : Point)
    (h0x : p0.x = p0.ox) (h0y : p0.y = p0.oy)
    (h1x : p1.x = p1.ox) (h1y : p1.y = p1.oy)
    (h2x : p2.x = p2.ox) (h2y : p2.y = p2.oy)
    (hdet : (p1.ox - p0.ox) * (p2.oy - p0.oy) -
            (p1.oy - p0.oy) * (p2.ox - p0.ox) ≠ 0) :
    affineCoeffs p0 p1 p2 = (1, 0, 0, 1, 0, 0) := by
  simp only [affineCoeffs, h0x, h0y, h1x, h1y, h2x, h2y, Prod.mk.injEq]
  refine ⟨?_, ?_, ?_, ?_, ?_, ?_⟩ <;> field_simp <;> ring

/-- **C4** (witness): the right unit triangle at rest. -/
theorem C4_affine_identity_witness :
    ((1 : ℚ) - 0) * (1 - 0) - (0 - 0) * (0 - 0) ≠ 0 ∧
    affineCoeffs ⟨0, 0, 0, 0, fun _ => 0⟩ ⟨1, 0, 1, 0, fun _ => 0⟩
      ⟨0, 1, 0, 1, fun _ => 0⟩ = (1, 0, 0, 1, 0, 0) :=
  ⟨by norm_num,
   C4_affine_identity _ _ _ rfl rfl rfl rfl rfl rfl (by norm_num)⟩

/-- **C5**.  `calculateDisplacement` depends on a point only through its rest
position `(ox, oy)`: two points with equal origins but arbitrary current
positions (and arbitrary weights) get the same displacement, for every time,
every config (all seven kinds) and every interpretation of the `Math`
functions — it never reads the current displaced position. -/
theorem C5_displacement_depends_only_on_origin (O : MathOps) (m : GridMesh)
    (p q : Point) (t : ℚ) (config : PhysicsConfig)
    (hx : p.ox = q.ox) (hy : p.oy = q.oy) :
    m.calculateDisplacement O p t config = m.calculateDisplacement O q t config := by
  obtain ⟨ty, amp, freq, sp, dX, dY, turb⟩ := config
  cases ty <;> simp only [GridMesh.calculateDisplacement, hx, hy]

/-- **C5** (witness): same origin `(7, 8)`, different current positions and
weights, same displacement. -/
theorem C5_displacement_witness :
    GridMesh.calculateDisplacement ⟨fun q => q, fun q => q, fun q => q, fun a b => a + b⟩
        ⟨1, 1, 10, 10, []⟩ ⟨3, 4, 7, 8, fun _ => 0⟩ 2
        ⟨AnimationType.wobble, 1, 1, 1, 0, 0, 0⟩ =
      GridMesh.calculateDisplacement ⟨fun q => q, fun q => q, fun q => q, fun a b => a + b⟩
        ⟨1, 1, 10, 10, []⟩ ⟨1, 2, 7, 8, fun _ => 1⟩ 2
        ⟨AnimationType.wobble, 1, 1, 1, 0, 0, 0⟩ :=
  C5_displacement_depends_only_on_origin _ _ _ _ _ _ rfl rfl

/-- **C10**.  At a point whose origin coincides with the mesh center the
displacement is still well-defined (no `NaN`): in the `idle` branch the
undefined radial direction is coerced to `0` (JS `|| 0`; rational division by
zero), giving `(0, -(breath * 0.5))` with
`breath = sin(t * frequency) * amplitude`; in the `pulse` branch the divisor
falls back to `1` (JS `dist || 1`), giving `(0, 0)`.  Only
`sqrt 0 = 0` is assumed of the abstract square root. -/
theorem C10_center_point_defined (O : MathOps) (m : GridMesh) (p : Point)
    (t : ℚ) (config : PhysicsConfig)
    (hx : p.ox = m.width / 2) (hy : p.oy = m.height / 2)
    (hsqrt : O.sqrt 0 = 0) :
    (config.type = AnimationType.idle →
      m.calculateDisplacement O p t config =
        (0, -(O.sin (t * config.frequency) * config.amplitude * 0.5))) ∧
    (config.type = AnimationType.pulse →
      m.calculateDisplacement O p t config = (0, 0)) := by
  obtain ⟨ty, amp, freq, sp, dX, dY, turb⟩ := config
  constructor <;> intro hty <;> subst hty <;>
    simp only [GridMesh.calculateDisplacement, hx, hy, sub_self] <;>
    norm_num [hsqrt]

/-- **C10** (witness): a `10 × 10` mesh, the point at the center `(5, 5)`, a
square root with `sqrt 0 = 0`; both the `idle` and the `pulse` values are
obtained by applying the theorem. -/
theorem C10_center_point_witness :
    GridMesh.calculateDisplacement ⟨fun q => q, fun q => q, fun q => q, fun a b => a + b⟩
        ⟨1, 1, 10, 10, []⟩ ⟨5, 5, 5, 5, fun _ => 0⟩ 3
        ⟨AnimationType.idle, 2, 7, 1, 0, 0, 0⟩ =
      (0, -((fun (q : ℚ) => q) (3 * 7) * 2 * 0.5)) ∧
    GridMesh.calculateDisplacement ⟨fun q => q, fun q => q, fun q => q, fun a b => a + b⟩
        ⟨1, 1, 10, 10, []⟩ ⟨5, 5, 5, 5, fun _ => 0⟩ 3
        ⟨AnimationType.pulse, 2, 7, 1, 0, 0, 0⟩ = (0, 0) :=
  ⟨(C10_center_point_defined ⟨fun q => q, fun q => q, fun q => q, fun a b => a + b⟩
      ⟨1, 1, 10, 10, []⟩ ⟨5, 5, 5, 5, fun _ => 0⟩ 3
      ⟨AnimationType.idle, 2, 7, 1, 0, 0, 0⟩ (by norm_num) (by norm_num) rfl).1 rfl,
   (C10_center_point_defined ⟨fun q => q, fun q => q, fun q => q, fun a b => a + b⟩
      ⟨1, 1, 10, 10, []⟩ ⟨5, 5, 5, 5, fun _ => 0⟩ 3
      ⟨AnimationType.pulse, 2, 7, 1, 0, 0, 0⟩ (by norm_num) (by norm_num) rfl).2 rfl⟩

/-- **C3**.  For a point within the brush radius (the code's distance
`sqrt(dx² + dy²)` below `radius`), with the previous weight in `[0, 1]`,
a nonnegative strength and a positive radius, the new weight for `layerId`
is exactly `clamp(w ± (1 - d/radius) * strength, 0, 1)`: the delta is added
when painting and subtracted when erasing. -/
theorem C3_brush_falloff (O : MathOps) (cx cy radius strength : ℚ)
    (isEraser : Bool) (layerId : String) (p : Point)
    (hradius : 0 < radius) (hstrength : 0 ≤ strength)
    (hw0 : 0 ≤ p.weights layerId) (hw1 : p.weights layerId ≤ 1)
    (hdist : O.sqrt ((p.ox - cx) * (p.ox - cx) + (p.oy - cy) * (p.oy - cy)) < radius) :
    (brushPoint O cx cy radius strength isEraser layerId p).weights layerId =
      clamp01 (p.weights layerId +
        (if isEraser then
          -((1 - O.sqrt ((p.ox - cx) * (p.ox - cx) + (p.oy - cy) * (p.oy - cy)) / radius)
              * strength)
         else
          (1 - O.sqrt ((p.ox - cx) * (p.ox - cx) + (p.oy - cy) * (p.oy - cy)) / radius)
              * strength)) := by
  have hfall : (0 : ℚ) ≤
      1 - O.sqrt ((p.ox - cx) * (p.ox - cx) + (p.oy - cy) * (p.oy - cy)) / radius := by
    have : O.sqrt ((p.ox - cx) * (p.ox - cx) + (p.oy - cy) * (p.oy - cy)) / radius < 1 :=
      (div_lt_one hradius).mpr hdist
    linarith
  have hchange : (0 : ℚ) ≤
      (1 - O.sqrt ((p.ox - cx) * (p.ox - cx) + (p.oy - cy) * (p.oy - cy)) / radius)
        * strength := mul_nonneg hfall hstrength
  simp only [brushPoint, if_pos hdist, eq_self_iff_true, if_true]
  cases isEraser with
  | false =>
      simp only [Bool.false_eq_true, if_false, clamp01]
      exact (max_eq_right (le_min zero_le_one (by linarith))).symm
  | true =>
      simp only [if_true, clamp01, ← sub_eq_add_neg]
      rw [min_eq_right (by linarith)]

/-- **C3** (witness): point at rest `(3, 4)`, brush at the origin, radius 10,
strength `1/2`, painting on an absent (zero) weight; the distance is 5, the
falloff `1/2`, and the new weight `1/4`. -/
theorem C3_brush_falloff_witness :
    (brushPoint ⟨fun q => q, fun q => q, fun q => if q = 25 then 5 else 0, fun a b => a⟩
        0 0 10 (1 / 2) false "a" ⟨0, 0, 3, 4, fun _ => 0⟩).weights "a" = 1 / 4 := by
  have h := C3_brush_falloff
    ⟨fun q => q, fun q => q, fun q => if q = 25 then 5 else 0, fun a b => a⟩
    0 0 10 (1 / 2) false "a" ⟨0, 0, 3, 4, fun _ => 0⟩
    (by norm_num) (by norm_num) (by norm_num) (by norm_num) (by norm_num)
  rw [h]
  norm_num [clamp01]

/-- **C7**.  Frame conditions of the brush: a point whose (code-computed)
distance from the center is at least the radius is returned entirely
unchanged; any point keeps its position, its origin and the weight of every
layer other than `layerId`; and the brush never changes the number of points
of the mesh. -/
theorem C7_brush_frame (O : MathOps) (cx cy radius strength : ℚ)
    (isEraser : Bool) (layerId : String) (m : GridMesh) (p : Point) :
    (radius ≤ O.sqrt ((p.ox - cx) * (p.ox - cx) + (p.oy - cy) * (p.oy - cy)) →
      brushPoint O cx cy radius strength isEraser layerId p = p) ∧
    (brushPoint O cx cy radius strength isEraser layerId p).x = p.x ∧
    (brushPoint O cx cy radius strength isEraser layerId p).y = p.y ∧
    (brushPoint O cx cy radius strength isEraser layerId p).ox = p.ox ∧
    (brushPoint O cx cy radius strength isEraser layerId p).oy = p.oy ∧
    (∀ id, id ≠ layerId →
      (brushPoint O cx cy radius strength isEraser layerId p).weights id = p.weights id) ∧
    (m.brush O cx cy radius strength isEraser layerId).points.length = m.points.length := by
  refine ⟨fun hfar => ?_, ?_, ?_, ?_, ?_, fun id hid => ?_, ?_⟩
  · simp only [brushPoint]
    rw [if_neg (not_lt.mpr hfar)]
  · simp only [brushPoint]; split <;> rfl
  · simp only [brushPoint]; split <;> rfl
  · simp only [brushPoint]; split <;> rfl
  · simp only [brushPoint]; split <;> rfl
  · simp only [brushPoint]
    split
    · dsimp only
      rw [if_neg hid]
    · rfl
  · simp [GridMesh.brush]

/-- **C7** (witness): a point at rest distance 25 (as computed by the chosen
square root) from the center with radius 1 is untouched, and the point count
of a one-point mesh is preserved. -/
theorem C7_brush_frame_witness :
    (brushPoint ⟨fun q => q, fun q => q, fun q => q, fun a b => a⟩
        0 0 1 1 false "a" ⟨0, 0, 3, 4, fun _ => 0⟩ = ⟨0, 0, 3, 4, fun _ => 0⟩) ∧
    (GridMesh.brush ⟨fun q => q, fun q => q, fun q => q, fun a b => a⟩
        ⟨1, 1, 10, 10, [⟨0, 0, 3, 4, fun _ => 0⟩]⟩
        0 0 1 1 false "a").points.length = 1 :=
  ⟨(C7_brush_frame ⟨fun q => q, fun q => q, fun q => q, fun a b => a⟩
      0 0 1 1 false "a" ⟨1, 1, 10, 10, []⟩ ⟨0, 0, 3, 4, fun _ => 0⟩).1 (by norm_num),
   (C7_brush_frame ⟨fun q => q, fun q => q, fun q => q, fun a b => a⟩
      0 0 1 1 false "a" ⟨1, 1, 10, 10, [⟨0, 0, 3, 4, fun _ => 0⟩]⟩
      ⟨0, 0, 3, 4, fun _ => 0⟩).2.2.2.2.2.2⟩

/-- All weights of all points of a mesh lie in `[0, 1]`. -/
def weightsInRange (m : GridMesh) : Prop :=
  ∀ p ∈ m.points, ∀ id, 0 ≤ p.weights id ∧ p.weights id ≤ 1

/-- **C8**.  Starting from a mesh whose weights all lie in `[0, 1]`, each of
`brush` (any center, positive radius, nonnegative strength, paint or erase),
`fillWeights` and `clearWeights` keeps every weight of every point, for every
layer id, inside `[0, 1]`. -/
theorem C8_weights_in_range (O : MathOps) (m : GridMesh)
    (cx cy radius strength : ℚ) (isEraser : Bool) (layerId : String)
    (hm : weightsInRange m) (hradius : 0 < radius) (hstrength : 0 ≤ strength) :
    weightsInRange (m.brush O cx cy radius strength isEraser layerId) ∧
    weightsInRange (m.fillWeights layerId) ∧
    weightsInRange (m.clearWeights layerId) := by
  refine ⟨?_, ?_, ?_⟩ <;> intro p hp id
  · simp only [GridMesh.brush, List.mem_map] at hp
    obtain ⟨q, hq, rfl⟩ := hp
    simp only [brushPoint]
    split
    · next hdist =>
        have hfall : (0 : ℚ) ≤
            1 - O.sqrt ((q.ox - cx) * (q.ox - cx) + (q.oy - cy) * (q.oy - cy)) / radius := by
          have : O.sqrt ((q.ox - cx) * (q.ox - cx) + (q.oy - cy) * (q.oy - cy)) / radius < 1 :=
            (div_lt_one hradius).mpr hdist
          linarith
        have hchange : (0 : ℚ) ≤
            (1 - O.sqrt ((q.ox - cx) * (q.ox - cx) + (q.oy - cy) * (q.oy - cy)) / radius)
              * strength := mul_nonneg hfall hstrength
        obtain ⟨hq0l, hq1l⟩ := hm q hq layerId
        dsimp only
        split
        · cases isEraser with
          | false =>
              simp only [Bool.false_eq_true, if_false]
              exact ⟨le_min zero_le_one (by linarith), min_le_left _ _⟩
          | true =>
              simp only [if_true]
              exact ⟨le_max_left _ _, max_le zero_le_one (by linarith)⟩
        · exact hm q hq id
    · exact hm q hq id
  · simp only [GridMesh.fillWeights, List.mem_map] at hp
    obtain ⟨q, hq, rfl⟩ := hp
    dsimp only
    split
    · norm_num
    · exact hm q hq id
  · simp only [GridMesh.clearWeights, List.mem_map] at hp
    obtain ⟨q, hq, rfl⟩ := hp
    dsimp only
    split
    · norm_num
    · exact hm q hq id

/-- **C8** (witness): one-point mesh with all weights `1/2`, brush of radius 1
and strength 1 at the origin; all three operations keep the range. -/
theorem C8_weights_in_range_witness :
    weightsInRange ((⟨1, 1, 10, 10, [⟨0, 0, 3, 4, fun _ => 1 / 2⟩]⟩ : GridMesh).brush
      ⟨fun q => q, fun q => q, fun q => q, fun a b => a⟩ 0 0 1 1 false "a") ∧
    weightsInRange ((⟨1, 1, 10, 10, [⟨0, 0, 3, 4, fun _ => 1 / 2⟩]⟩ : GridMesh).fillWeights "a") ∧
    weightsInRange ((⟨1, 1, 10, 10, [⟨0, 0, 3, 4, fun _ => 1 / 2⟩]⟩ : GridMesh).clearWeights "a") :=
  C8_weights_in_range ⟨fun q => q, fun q => q, fun q => q, fun a b => a⟩
    ⟨1, 1, 10, 10, [⟨0, 0, 3, 4, fun _ => 1 / 2⟩]⟩ 0 0 1 1 false "a"
    (by
      intro p hp id
      simp only [List.mem_singleton] at hp
      subst hp
      norm_num)
    (by norm_num) (by norm_num)

/-- The layers that contribute to a point in `GridMesh.update`: visible and
with weight above `0.01` at that point. -/
def contributing (p : Point) (layers : List AnimationLayer) : List AnimationLayer :=
  layers.filter (fun l => l.isVisible && decide ((0.01 : ℚ) < p.weights l.id))

/-- Unfolding of the layer loop of `GridMesh.update`: starting from the
accumulator `(a, b, act)`, it adds the weighted displacements of exactly the
contributing layers and ors `act` with their existence.  (The JS guard
`weight && weight > 0.01` equals `weight > 0.01`, a positive weight being
truthy.) -/
theorem updateAccum_eq (O : MathOps) (m : GridMesh) (time : ℚ) (p : Point) :
    ∀ (layers : List AnimationLayer) (a b : ℚ) (act : Bool),
      updateAccum O m time p layers (a, b, act) =
        (a + ((contributing p layers).map (fun l =>
            p.weights l.id *
              (m.calculateDisplacement O p (time * l.config.speed) l.config).1)).sum,
         b + ((contributing p layers).map (fun l =>
            p.weights l.id *
              (m.calculateDisplacement O p (time * l.config.speed) l.config).2)).sum,
         act || !(contributing p layers).isEmpty) := by
  intro layers
  induction layers with
  | nil => intro a b act; simp [updateAccum, contributing]
  | cons l rest ih =>
      intro a b act
      by_cases hv : l.isVisible = true
      · by_cases hw : (0.01 : ℚ) < p.weights l.id
        · have hcond : p.weights l.id ≠ 0 ∧ (0.01 : ℚ) < p.weights l.id :=
            ⟨ne_of_gt (lt_trans (by norm_num) hw), hw⟩
          have hfilter : contributing p (l :: rest) = l :: contributing p rest :=
            List.filter_cons_of_pos (by simp [hv, hw])
          simp only [updateAccum, if_pos hv, if_pos hcond, ih, hfilter,
            List.map_cons, List.sum_cons, List.isEmpty_cons, Prod.mk.injEq]
          refine ⟨by ring, by ring, by simp⟩
        · have hcond : ¬(p.weights l.id ≠ 0 ∧ (0.01 : ℚ) < p.weights l.id) :=
            fun h => hw h.2
          have hfilter : contributing p (l :: rest) = contributing p rest :=
            List.filter_cons_of_neg (by simp [hw])
          simp only [updateAccum, if_pos hv, if_neg hcond, ih, hfilter]
      · have hfilter : contributing p (l :: rest) = contributing p rest :=
          List.filter_cons_of_neg (by simp [Bool.and_eq_true, hv])
        simp only [updateAccum, if_neg hv, ih, hfilter]

/-- **C2**.  `update(time, layers)` maps the point loop over all points; for
every point the new position is `origin + Σ weight · displacement`, the sum
ranging over exactly the visible layers whose weight at the point exceeds
`0.01` (each displacement taken at layer-local time `time * speed`); and when
no visible layer has weight above `0.01` at the point, the position is set to
the origin exactly — no residual drift. -/
theorem C2_update_accumulates (O : MathOps) (m : GridMesh) (time : ℚ)
    (layers : List AnimationLayer) (p : Point) :
    (m.update O time layers).points = m.points.map (updatePoint O m time layers) ∧
    (updatePoint O m time layers p).x =
      p.ox + ((contributing p layers).map (fun l =>
        p.weights l.id *
          (m.calculateDisplacement O p (time * l.config.speed) l.config).1)).sum ∧
    (updatePoint O m time layers p).y =
      p.oy + ((contributing p layers).map (fun l =>
        p.weights l.id *
          (m.calculateDisplacement O p (time * l.config.speed) l.config).2)).sum ∧
    (contributing p layers = [] →
      (updatePoint O m time layers p).x = p.ox ∧
      (updatePoint O m time layers p).y = p.oy) := by
  have hacc := updateAccum_eq O m time p layers 0 0 false
  refine ⟨rfl, ?_, ?_, fun hnone => ?_⟩
  · simp only [updatePoint, hacc, Bool.false_or]
    split
    · next hempty =>
        have h0 : contributing p layers = [] := by simpa using hempty
        simp [h0]
    · simp
  · simp only [updatePoint, hacc, Bool.false_or]
    split
    · next hempty =>
        have h0 : contributing p layers = [] := by simpa using hempty
        simp [h0]
    · simp
  · simp only [updatePoint, hacc, Bool.false_or, hnone]
    simp

/-- **C2** (witness): with no layers at all nothing contributes and the point
is pinned to its origin. -/
theorem C2_update_accumulates_witness :
    (updatePoint ⟨fun q => q, fun q => q, fun q => q, fun a b => a⟩
        ⟨1, 1, 10, 10, []⟩ 5 [] ⟨1, 2, 3, 4, fun _ => 1⟩).x =
      (Point.mk 1 2 3 4 (fun _ => 1)).ox ∧
    (updatePoint ⟨fun q => q, fun q => q, fun q => q, fun a b => a⟩
        ⟨1, 1, 10, 10, []⟩ 5 [] ⟨1, 2, 3, 4, fun _ => 1⟩).y =
      (Point.mk 1 2 3 4 (fun _ => 1)).oy :=
  (C2_update_accumulates ⟨fun q => q, fun q => q, fun q => q, fun a b => a⟩
    ⟨1, 1, 10, 10, []⟩ 5 [] ⟨1, 2, 3, 4, fun _ => 1⟩).2.2.2 rfl

/-- **C9**.  `removeLayer(id)` with exactly one layer present is rejected with
no mutation at all (layer list, active selection and every weight untouched);
with more than one layer it removes exactly the layers bearing that id,
zeroes every point's weight for that id, and leaves the weight of every other
layer id at every point unchanged (point count preserved). -/
theorem C9_removeLayer_guard (st : WarpState) (id : String) :
    (st.layers.length = 1 → removeLayer id st = st) ∧
    (1 < st.layers.length →
      (removeLayer id st).layers = st.layers.filter (fun l => l.id ≠ id) ∧
      (removeLayer id st).mesh.points.length = st.mesh.points.length ∧
      ∀ i p1 p2, (removeLayer id st).mesh.points.get? i = some p1 →
        st.mesh.points.get? i = some p2 →
        p1.weights id = 0 ∧
        ∀ id2, id2 ≠ id → p1.weights id2 = p2.weights id2) := by
  constructor
  · intro h1
    simp [removeLayer, h1]
  · intro hgt
    have hcond : ¬ st.layers.length ≤ 1 := not_le.mpr hgt
    have hR : (removeLayer id st).mesh = st.mesh.clearWeights id := by
      simp only [removeLayer, if_neg hcond]
    refine ⟨by simp only [removeLayer, if_neg hcond], ?_, fun i p1 p2 h1 h2 => ?_⟩
    · rw [hR]
      simp [GridMesh.clearWeights]
    · rw [hR] at h1
      simp only [GridMesh.clearWeights, List.get?_map, h2, Option.map_some,
        Option.map_some', Option.some.injEq] at h1
      subst h1
      refine ⟨by simp, fun id2 hid2 => by simp [hid2]⟩

/-- **C9** (witness): a two-layer state; removing layer `"a"` filters the
list, preserves the point count, zeroes the `"a"` weight of the point and
keeps its `"b"` weight. -/
theorem C9_removeLayer_guard_witness :
    (removeLayer "a"
        ⟨[⟨"a", "", true, "", ⟨AnimationType.idle, 1, 1, 1, 0, 0, 0⟩⟩,
          ⟨"b", "", true, "", ⟨AnimationType.wind, 1, 1, 1, 0, 0, 0⟩⟩], "a",
         ⟨1, 1, 10, 10, [⟨0, 0, 3, 4, fun _ => 1⟩]⟩⟩).layers =
      ([⟨"a", "", true, "", ⟨AnimationType.idle, 1, 1, 1, 0, 0, 0⟩⟩,
        ⟨"b", "", true, "", ⟨AnimationType.wind, 1, 1, 1, 0, 0, 0⟩⟩] :
          List AnimationLayer).filter (fun l => l.id ≠ "a") ∧
    (removeLayer "a"
        ⟨[⟨"a", "", true, "", ⟨AnimationType.idle, 1, 1, 1, 0, 0, 0⟩⟩,
          ⟨"b", "", true, "", ⟨AnimationType.wind, 1, 1, 1, 0, 0, 0⟩⟩], "a",
         ⟨1, 1, 10, 10, [⟨0, 0, 3, 4, fun _ => 1⟩]⟩⟩).mesh.points.length =
      (⟨1, 1, 10, 10, [⟨0, 0, 3, 4, fun _ => 1⟩]⟩ : GridMesh).points.length ∧
    (Point.mk 0 0 3 4 (fun k => if k = "a" then 0 else 1)).weights "a" = 0 ∧
    (Point.mk 0 0 3 4 (fun k => if k = "a" then 0 else 1)).weights "b" =
      (Point.mk 0 0 3 4 (fun _ => 1)).weights "b" :=
  ⟨((C9_removeLayer_guard
      ⟨[⟨"a", "", true, "", ⟨AnimationType.idle, 1, 1, 1, 0, 0, 0⟩⟩,
        ⟨"b", "", true, "", ⟨AnimationType.wind, 1, 1, 1, 0, 0, 0⟩⟩], "a",
       ⟨1, 1, 10, 10, [⟨0, 0, 3, 4, fun _ => 1⟩]⟩⟩ "a").2 (by norm_num)).1,
   ((C9_removeLayer_guard
      ⟨[⟨"a", "", true, "", ⟨AnimationType.idle, 1, 1, 1, 0, 0, 0⟩⟩,
        ⟨"b", "", true, "", ⟨AnimationType.wind, 1, 1, 1, 0, 0, 0⟩⟩], "a",
       ⟨1, 1, 10, 10, [⟨0, 0, 3, 4, fun _ => 1⟩]⟩⟩ "a").2 (by norm_num)).2.1,
   (((C9_removeLayer_guard
      ⟨[⟨"a", "", true, "", ⟨AnimationType.idle, 1, 1, 1, 0, 0, 0⟩⟩,
        ⟨"b", "", true, "", ⟨AnimationType.wind, 1, 1, 1, 0, 0, 0⟩⟩], "a",
       ⟨1, 1, 10, 10, [⟨0, 0, 3, 4, fun _ => 1⟩]⟩⟩ "a").2 (by norm_num)).2.2
      0 (Point.mk 0 0 3 4 (fun k => if k = "a" then 0 else 1))
      (Point.mk 0 0 3 4 (fun _ => 1)) rfl rfl).1,
   (((C9_removeLayer_guard
      ⟨[⟨"a", "", true, "", ⟨AnimationType.idle, 1, 1, 1, 0, 0, 0⟩⟩,
        ⟨"b", "", true, "", ⟨AnimationType.wind, 1, 1, 1, 0, 0, 0⟩⟩], "a",
       ⟨1, 1, 10, 10, [⟨0, 0, 3, 4, fun _ => 1⟩]⟩⟩ "a").2 (by norm_num)).2.2
      0 (Point.mk 0 0 3 4 (fun k => if k = "a" then 0 else 1))
      (Point.mk 0 0 3 4 (fun _ => 1)) rfl rfl).2 "b" (by decide)⟩

/-- The mesh after `k` export ticks starting from global time `t`: tick `i`
increments the time by 1 and calls `update`. -/
def meshIter (O : MathOps) (layers : List AnimationLayer) :
    ℕ → ℚ → GridMesh → GridMesh
  | 0, _, m => m
  | k + 1, t, m => meshIter O layers k (t + 1) (m.update O (t + 1) layers)

/-- The export loop hands exactly `fuel` frames to the encoder. -/
theorem captureLoopAux_frames_length (O : MathOps) (ls : List AnimationLayer)
    (d : ℚ) (total : ℕ) :
    ∀ (fuel : ℕ) (t : ℚ) (m : GridMesh) (cf : ℕ),
      (captureLoopAux O ls d total fuel t m cf).1.length = fuel := by
  intro fuel
  induction fuel with
  | zero => intros; rfl
  | succ n ih => intro t m cf; simp [captureLoopAux, ih]

/-- Every frame handed to the encoder carries the requested delay. -/
theorem captureLoopAux_frames_delay (O : MathOps) (ls : List AnimationLayer)
    (d : ℚ) (total : ℕ) :
    ∀ (fuel : ℕ) (t : ℚ) (m : GridMesh) (cf : ℕ),
      ∀ f ∈ (captureLoopAux O ls d total fuel t m cf).1, f.delay = d := by
  intro fuel
  induction fuel with
  | zero => intro t m cf f hf; simp [captureLoopAux] at hf
  | succ n ih =>
      intro t m cf f hf
      simp only [captureLoopAux, List.mem_cons] at hf
      rcases hf with hf | hf
      · rw [hf]
      · exact ih _ _ _ f hf

/-- Frame `k` of the export is the render of the mesh after `k + 1` ticks. -/
theorem captureLoopAux_frames_get (O : MathOps) (ls : List AnimationLayer)
    (d : ℚ) (total : ℕ) :
    ∀ (fuel : ℕ) (t : ℚ) (m : GridMesh) (cf : ℕ) (k : ℕ), k < fuel →
      (captureLoopAux O ls d total fuel t m cf).1.get? k =
        some ⟨d, meshIter O ls (k + 1) t m⟩ := by
  intro fuel
  induction fuel with
  | zero => intro t m cf k hk; omega
  | succ n ih =>
      intro t m cf k hk
      cases k with
      | zero => rfl
      | succ k =>
          have hk2 : k < n := by omega
          simp only [captureLoopAux, List.get?_cons_succ]
          exact ih _ _ _ k hk2

/-- After the final `finished` callback the time counter is `0` and the mesh
is the reset of the mesh after all `fuel` ticks. -/
theorem captureLoopAux_final (O : MathOps) (ls : List AnimationLayer)
    (d : ℚ) (total : ℕ) :
    ∀ (fuel : ℕ) (t : ℚ) (m : GridMesh) (cf : ℕ),
      (captureLoopAux O ls d total fuel t m cf).2.2 =
        (0, resetMeshPositions (meshIter O ls fuel t m)) := by
  intro fuel
  induction fuel with
  | zero => intros; rfl
  | succ n ih => intro t m cf; simp only [captureLoopAux, meshIter]; exact ih _ _ _

/-- The reported progress values of the export loop, as a function of the
frame counter only. -/
theorem captureLoopAux_progress (O : MathOps) (ls : List AnimationLayer)
    (d : ℚ) (total : ℕ) :
    ∀ (fuel : ℕ) (t : ℚ) (m : GridMesh) (cf : ℕ),
      (captureLoopAux O ls d total fuel t m cf).2.1 =
        (List.range fuel).map
          (fun j => jsRound ((((cf + j : ℕ) : ℚ) + 1) / (total : ℚ) * 100)) := by
  intro fuel
  induction fuel with
  | zero => intros; rfl
  | succ n ih =>
      intro t m cf
      have hfun : ((fun j => jsRound ((((cf + j : ℕ) : ℚ) + 1) / (total : ℚ) * 100)) ∘
            Nat.succ) =
          (fun j => jsRound ((((cf + 1 + j : ℕ) : ℚ) + 1) / (total : ℚ) * 100)) := by
        funext j
        simp only [Function.comp_apply]
        congr 1
        push_cast
        ring
      simp only [captureLoopAux, ih, List.range_succ_eq_map, List.map_cons, List.map_map,
        hfun]
      congr 2

/-- Unfolding of `handleExportGIF` to its capture loop (definitional). -/
theorem handleExportGIF_def (O : MathOps) (layers : List AnimationLayer)
    (gifDuration gifFps : ℕ) (time0 : ℚ) (mesh : GridMesh) :
    handleExportGIF O layers gifDuration gifFps time0 mesh =
      captureLoopAux O layers ((1000 : ℚ) / (gifFps : ℚ)) (gifDuration * gifFps)
        (gifDuration * gifFps) time0 mesh 0 := rfl

set_option maxHeartbeats 1000000 in
/-- **C6**.  A GIF export with `duration = 2` s and `fps = 20` (mesh loaded,
encoder available) runs exactly `2 * 20 = 40` ticks: each tick increments the
global time by 1 and calls `update` then the render, handing exactly one
frame with per-frame delay `1000 / fps = 50` ms to the encoder — 40 `addFrame`
calls in all, frame `k` holding the mesh after `k + 1` ticks from the start
time; the reported progress values are strictly increasing up to the final
`100`; and on completion the tick counter is reset to `0` and every point's
position equals its origin. -/
theorem C6_gif_export_run (O : MathOps) (layers : List AnimationLayer)
    (t0 : ℚ) (m : GridMesh) :
    (handleExportGIF O layers 2 20 t0 m).1.length = 40 ∧
    (∀ f ∈ (handleExportGIF O layers 2 20 t0 m).1, f.delay = 1000 / 20) ∧
    (∀ k, k < 40 →
      (handleExportGIF O layers 2 20 t0 m).1.get? k =
        some ⟨1000 / 20, meshIter O layers (k + 1) t0 m⟩) ∧
    List.Chain' (fun a b => a < b) (handleExportGIF O layers 2 20 t0 m).2.1 ∧
    (handleExportGIF O layers 2 20 t0 m).2.1.getLast? = some 100 ∧
    (handleExportGIF O layers 2 20 t0 m).2.2.1 = 0 ∧
    ∀ p ∈ (handleExportGIF O layers 2 20 t0 m).2.2.2.points,
      p.x = p.ox ∧ p.y = p.oy := by
  rw [handleExportGIF_def]
  have hfin := captureLoopAux_final O layers ((1000 : ℚ) / ((20 : ℕ) : ℚ))
    (2 * 20) (2 * 20) t0 m 0
  have hprog : (captureLoopAux O layers ((1000 : ℚ) / ((20 : ℕ) : ℚ))
      (2 * 20) (2 * 20) t0 m 0).2.1 =
      [3, 5, 8, 10, 13, 15, 18, 20, 23, 25, 28, 30, 33, 35, 38, 40,
       43, 45, 48, 50, 53, 55, 58, 60, 63, 65, 68, 70, 73, 75, 78, 80,
       83, 85, 88, 90, 93, 95, 98, 100] := by
    rw [captureLoopAux_progress]
    norm_num [List.range_succ, jsRound]
  refine ⟨?_, ?_, ?_, ?_, ?_, ?_, ?_⟩
  · rw [captureLoopAux_frames_length]
  · intro f hf
    rw [captureLoopAux_frames_delay O layers ((1000 : ℚ) / ((20 : ℕ) : ℚ))
      (2 * 20) (2 * 20) t0 m 0 f hf]
    norm_num
  · intro k hk
    refine (captureLoopAux_frames_get O layers ((1000 : ℚ) / ((20 : ℕ) : ℚ))
      (2 * 20) (2 * 20) t0 m 0 k (by omega)).trans ?_
    norm_num
  · rw [hprog]
    norm_num [List.chain'_cons]
  · rw [hprog]
    rfl
  · rw [hfin]
  · intro p hp
    rw [hfin] at hp
    dsimp only at hp
    rw [show resetMeshPositions (meshIter O layers (2 * 20) t0 m) =
        { meshIter O layers (2 * 20) t0 m with
          points := (meshIter O layers (2 * 20) t0 m).points.map
            (fun p => { p with x := p.ox, y := p.oy }) } from rfl] at hp
    dsimp only at hp
    rw [List.mem_map] at hp
    obtain ⟨q, hq, rfl⟩ := hp
    exact ⟨rfl, rfl⟩
